/-
Verification of the OAuth2 token lifecycle and Gmail synchronization pipeline
of the gmail-viewer backend (Node.js/Express + Sequelize).

The JavaScript services are shallowly embedded as pure Lean functions:
  * `User` / `EmailRow` mirror the Sequelize models `User` and `EmailMetadata`;
  * timestamps are integers counting milliseconds (JS `Date` values);
  * nullable columns are `Option`s; JS truthiness is made explicit;
  * thrown errors are `Except String` values carrying the thrown message;
  * remote HTTP calls (OAuth refresh, Gmail list/get) are supplied as
    explicit outcome parameters, so each code path is a function of the
    remote behaviour.
-/
import Mathlib

namespace GmailViewer

/-! ## JS string primitives used by the services -/

/-- `occursIn pat hay` decides whether `pat` is a contiguous sublist of
`hay` (the semantics of JS `String.prototype.includes`). -/
def occursIn (pat : List Char) : List Char → Bool
  | [] => pat.isPrefixOf []
  | c :: rest => pat.isPrefixOf (c :: rest) || occursIn pat rest

/-- JS `String.prototype.includes`: substring containment. -/
def jsIncludes (s pat : String) : Bool :=
  occursIn pat.toList s.toList

/-- JS `String.prototype.toLowerCase` (ASCII fragment, as used on header
names and priority values). -/
def lowerStr (s : String) : String :=
  String.mk (s.toList.map Char.toLower)

/-- Whitespace recognised by JS `\s` / `trim` (the fragment that can occur
in mail headers). -/
def isJsWs (c : Char) : Bool :=
  c = ' ' || c = '\t' || c = '\n' || c = '\r'

/-- JS `String.prototype.trim`. -/
def jsTrim (s : String) : String :=
  String.mk (((s.toList.dropWhile isJsWs).reverse.dropWhile isJsWs).reverse)

/-- JS truthiness of a nullable string column (`null`/`''` are falsy). -/
def truthyStr : Option String → Bool
  | some s => s ≠ ""
  | none => false

/-! ## The `User` model (src/backend/models/User.js) -/

/-- One row of the `users` table. -/
structure User where
  id : Nat
  googleId : String
  email : String
  name : String
  picture : Option String
  accessToken : Option String
  refreshToken : Option String
  tokenExpiry : Option Int
  lastLoginAt : Option Int
  isActive : Bool
deriving Repr, DecidableEq

/-- `User.prototype.isTokenExpired`:
`if (!this.tokenExpiry) return true; return new Date() > this.tokenExpiry;`.
`now` is the current time in milliseconds. -/
def isTokenExpired (now : Int) (u : User) : Bool :=
  match u.tokenExpiry with
  | none => true
  | some t => now > t

/-! ## Token refresh (src/backend/services/authService.js, refreshAccessToken) -/

/-- The credential object returned by a successful
`oauth2Client.refreshAccessToken()` call: the new access token and an
optional absolute expiry timestamp (ms). -/
structure Credentials where
  access_token : String
  expiry_date : Option Int
deriving Repr, DecidableEq

/-- Outcome of the remote refresh exchange: either new credentials or a
thrown error carrying a message. -/
inductive RefreshOutcome where
  | success (creds : Credentials)
  | failure (msg : String)
deriving Repr, DecidableEq

/-- JS truthiness of the `expiry_date` field (`0`/absent are falsy). -/
def truthyExpiry : Option Int → Bool
  | some e => e ≠ 0
  | none => false

/-- The seconds added to `new Date()` when recomputing `tokenExpiry`:
`credentials.expiry_date ? Math.floor((credentials.expiry_date - Date.now()) / 1000) : 3600`. -/
def refreshLifetimeSec (now : Int) (e : Option Int) : Int :=
  if truthyExpiry e then Int.fdiv (e.getD 0 - now) 1000 else 3600

/-- The terminal error message thrown when the remote rejects the grant. -/
def invalidGrantMsg : String :=
  "invalid_grant: Refresh token is invalid, expired, or revoked. User must re-authenticate."

/-- `authService.refreshAccessToken(user)`: returns the updated user row
together with the result (`ok newAccessToken` or the thrown error message).
The remote call's behaviour is the `outcome` parameter. -/
def refreshAccessToken (now : Int) (u : User) (outcome : RefreshOutcome) :
    User × Except String String :=
  match u.refreshToken with
  | none =>
      (u, .error "No refresh token available for user. Re-authentication required.")
  | some _ =>
      match outcome with
      | .failure msg =>
          if jsIncludes msg "invalid_grant" then
            ({ u with accessToken := none, refreshToken := none, tokenExpiry := none },
             .error invalidGrantMsg)
          else
            (u, .error (if jsIncludes msg "invalid_grant" ||
                           jsIncludes msg "Re-authentication required" then msg
                        else "Failed to refresh access token: " ++ msg))
      | .success creds =>
          let newExpiry := now + 1000 * refreshLifetimeSec now creds.expiry_date
          ({ u with accessToken := some creds.access_token, tokenExpiry := some newExpiry },
           .ok creds.access_token)

/-! ## Gmail client initialization (src/backend/services/gmailService.js) -/

/-- The OAuth environment configuration read from `process.env`. -/
structure OAuthConfig where
  clientId : Option String
  clientSecret : Option String
  redirectUri : Option String
deriving Repr, DecidableEq

/-- Result of `gmailService.initializeClient(user)`: the (possibly
refreshed) user row, whether a refresh exchange was attempted, and either
the credentials installed on the API client or the thrown error message. -/
structure InitOutcome where
  user : User
  refreshCalled : Bool
  result : Except String (Option String × Option String)
deriving Repr

/-- `gmailService.initializeClient(user)`.  Checks configuration, token
presence and expiry; refreshes through `authService.refreshAccessToken`
when expired; installs `{access_token, refresh_token}` on the client.
Thrown messages not containing `'re-authenticate'` are wrapped by the
outer catch as `Failed to initialize Gmail connection: ...`. -/
def initializeClient (cfg : OAuthConfig) (now : Int) (u : User)
    (outcome : RefreshOutcome) : InitOutcome :=
  if !(truthyStr cfg.clientId && truthyStr cfg.clientSecret && truthyStr cfg.redirectUri) then
    ⟨u, false, .error
      "Failed to initialize Gmail connection: Missing Google OAuth configuration in environment variables"⟩
  else if !truthyStr u.accessToken && !truthyStr u.refreshToken then
    ⟨u, false, .error
      "Failed to initialize Gmail connection: User has no valid OAuth tokens. Re-authentication required."⟩
  else if isTokenExpired now u then
    if !truthyStr u.refreshToken then
      ⟨u, false, .error "Refresh token not available. User needs to re-authenticate."⟩
    else
      match refreshAccessToken now u outcome with
      | (u', .error emsg) =>
          ⟨u', true, .error
            (if jsIncludes emsg "invalid_grant" then
              "Refresh token is invalid or expired. User needs to re-authenticate."
             else "Failed to refresh access token. Please re-authenticate.")⟩
      | (u', .ok _) =>
          ⟨u', true, .ok (u'.accessToken, u'.refreshToken)⟩
  else
    ⟨u, false, .ok (u.accessToken, u.refreshToken)⟩

/-! ## Gmail message payloads and parsing -/

/-- One metadata header of a Gmail message. -/
structure GmailHeader where
  name : String
  value : String
deriving Repr, DecidableEq

/-- One body part, as far as attachment detection inspects it
(`part.filename`, `part.body.attachmentId`). -/
structure GmailPart where
  filename : String
  attachmentId : Option String
deriving Repr, DecidableEq

/-- A Gmail API message as consumed by `parseEmailMessage` (metadata
format: id, thread id, snippet, labels, size estimate, payload headers
and parts). -/
structure GmailMessage where
  id : String
  threadId : String
  snippet : String
  labelIds : List String
  sizeEstimate : Nat
  headers : List GmailHeader
  parts : Option (List GmailPart)
deriving Repr, DecidableEq

/-- The `getHeader` helper inside `parseEmailMessage`: value of the first
header whose name matches case-insensitively, else `''`. -/
def getHeader (headers : List GmailHeader) (name : String) : String :=
  match headers.find? (fun h => lowerStr h.name = lowerStr name) with
  | some h => h.value
  | none => ""

/-- Sender parsing: `fromHeader.match(/^(.+?)\s*<(.+?)>$|^(.+)$/)` followed
by trimming of the name (group 1) and address (group 2 or 3) captures.
The first alternative matches when the string ends in `>` and some `<`
occurs at an index `i ≥ 1` with at least one character before the closing
`>`; lazy matching picks the least such `i`; group 2 runs from that `<` to
the final `>`.  Returns `(senderName, senderEmail)`. -/
def parseSender (s : String) : String × String :=
  let cs := s.toList
  let n := cs.length
  if n = 0 then ("", "")
  else if cs.getLastD ' ' = '>' then
    match (List.range n).find?
        (fun i => decide (1 ≤ i) && decide (cs.getD i ' ' = '<') && decide (i + 3 ≤ n)) with
    | some i =>
        (jsTrim (String.mk (cs.take i)),
         jsTrim (String.mk ((cs.drop (i + 1)).take (n - i - 2))))
    | none => ("", jsTrim s)
  else ("", jsTrim s)

/-- `checkForAttachments(payload)`: some part has a non-empty filename or
a truthy `body.attachmentId`; `false` when `payload.parts` is absent. -/
def checkForAttachments (parts : Option (List GmailPart)) : Bool :=
  match parts with
  | some ps => ps.any (fun p => (p.filename ≠ "" : Bool) || truthyStr p.attachmentId)
  | none => false

/-- `determinePriority(labels, headers)`. -/
def determinePriority (labels : List String) (headers : List GmailHeader) : String :=
  if labels.contains "IMPORTANT" || labels.contains "CATEGORY_PROMOTIONS" then "high"
  else
    match headers.find? (fun h =>
        lowerStr h.name = "x-priority" || lowerStr h.name = "priority") with
    | some h =>
        let p := lowerStr h.value
        if jsIncludes p "high" || p = "1" then "high"
        else if jsIncludes p "low" || p = "5" then "low"
        else "medium"
    | none => "medium"

/-! ## The `EmailMetadata` model (src/backend/models/EmailMetadata.js) -/

/-- One row of the `email_metadata` table.  The unique index is on
`(userId, messageId)`; `gmailMessageId` is nullable and not unique. -/
structure EmailRow where
  userId : Nat
  messageId : String
  threadId : String
  subject : String
  sender : String
  senderName : String
  recipient : String
  snippet : String
  bodyPreview : String
  receivedDate : Int
  isRead : Bool
  isStarred : Bool
  hasAttachments : Bool
  labels : List String
  priority : String
  size : Nat
  gmailMessageId : Option String
deriving Repr, DecidableEq

/-- `parseEmailMessage(messageData, userId)`.  `parseDate` abstracts the
JS `new Date(dateStr)` parser; `now` is the current time used when the
Date header is absent. -/
def parseEmailMessage (now : Int) (parseDate : String → Int)
    (m : GmailMessage) (userId : Nat) : EmailRow :=
  let fromHeader := getHeader m.headers "From"
  let sn := parseSender fromHeader
  let dateStr := getHeader m.headers "Date"
  let midHeader := getHeader m.headers "Message-ID"
  let subj := getHeader m.headers "Subject"
  { userId := userId
    messageId := if midHeader = "" then m.id else midHeader
    threadId := m.threadId
    subject := if subj = "" then "(No Subject)" else subj
    sender := sn.2
    senderName := sn.1
    recipient := getHeader m.headers "To"
    snippet := m.snippet
    bodyPreview := String.mk (m.snippet.toList.take 200)
    receivedDate := if dateStr = "" then now else parseDate dateStr
    isRead := !(m.labelIds.contains "UNREAD")
    isStarred := m.labelIds.contains "STARRED"
    hasAttachments := checkForAttachments m.parts
    labels := m.labelIds
    priority := determinePriority m.labelIds m.headers
    size := m.sizeEstimate
    gmailMessageId := some m.id }

/-! ## Persisting messages (storeEmails) -/

/-- Whether a row with the given `(userId, messageId)` key exists. -/
def hasKey (db : List EmailRow) (uid : Nat) (mid : String) : Bool :=
  db.any (fun r => r.userId == uid && r.messageId == mid)

/-- Number of rows carrying the given `(userId, messageId)` key. -/
def keyCount (db : List EmailRow) (uid : Nat) (mid : String) : Nat :=
  (db.filter (fun r => r.userId == uid && r.messageId == mid)).length

/-- The unique index on `(userId, messageId)` declared on the model. -/
def UniqueKeys (db : List EmailRow) : Prop :=
  ∀ uid mid, keyCount db uid mid ≤ 1

/-- Sequelize `EmailMetadata.findOrCreate({where: {userId, messageId},
defaults})`: inserts `defaults` when no row matches the key, otherwise
leaves the table unchanged. -/
def findOrCreate (db : List EmailRow) (uid : Nat) (mid : String)
    (defaults : EmailRow) : List EmailRow :=
  if hasKey db uid mid then db else db ++ [defaults]

/-- `gmailService.storeEmails(emails)`: one `findOrCreate` per parsed
message, keyed by `(emailData.userId, emailData.messageId)`. -/
def storeEmails (db : List EmailRow) (emails : List EmailRow) : List EmailRow :=
  emails.foldl (fun d e => findOrCreate d e.userId e.messageId e) db

/-! ## Fetching a page of messages (fetchEmails) -/

/-- The value returned by `fetchEmails`. -/
structure FetchOutcome where
  emails : List EmailRow
  nextPageToken : Option String
  totalCount : Nat
deriving Repr, DecidableEq

/-- The message-list / per-message stages of `gmailService.fetchEmails`
(after client initialization).  `listOutcome` is the `messages.list`
response: an error message, or the listed ids plus an optional
continuation token (the empty id list standing for an absent `messages`
field).  `detail` is the per-id `messages.get` behaviour: each failure is
logged and the message dropped (`filter(email => email !== null)`); the
survivors go through `storeEmails`, and the rows matching the synced
`gmailMessageId`s are re-read (`findByUser`, total count plus a page of
at most `maxResults` rows).  Returns the result and the updated table. -/
def fetchEmails (uid : Nat) (now : Int) (parseDate : String → Int)
    (maxResults : Nat)
    (listOutcome : Except String (List String × Option String))
    (detail : String → Except String GmailMessage)
    (db : List EmailRow) :
    Except String FetchOutcome × List EmailRow :=
  match listOutcome with
  | .error e => (.error e, db)
  | .ok (ids, npt) =>
      if ids.isEmpty then (.ok ⟨[], none, 0⟩, db)
      else
        let parsed := ids.filterMap (fun i =>
          match detail i with
          | .ok m => some (parseEmailMessage now parseDate m uid)
          | .error _ => none)
        let db' := storeEmails db parsed
        let gids := parsed.map (·.gmailMessageId)
        let stored := db'.filter (fun r =>
          r.userId == uid && gids.contains r.gmailMessageId)
        (.ok ⟨stored.take maxResults, npt, stored.length⟩, db')

/-! ## Local search and the lazy remote fallback (searchEmails) -/

/-- A `findAndCountAll` result: total match count and one page of rows. -/
structure SearchResult where
  count : Nat
  rows : List EmailRow
deriving Repr, DecidableEq

/-- `EmailMetadata.searchEmails(userId, searchTerm, {limit, offset})`:
substring match (`LIKE '%term%'`) across subject, sender, senderName and
snippet, scoped to the user. -/
def localSearchEmails (db : List EmailRow) (uid : Nat) (term : String)
    (limit offset : Nat) : SearchResult :=
  let hits := db.filter (fun r => r.userId == uid &&
    (jsIncludes r.subject term || jsIncludes r.sender term ||
     jsIncludes r.senderName term || jsIncludes r.snippet term))
  ⟨hits.length, (hits.drop offset).take limit⟩

/-- The Gmail query string assembled by `searchEmails` from the search
options (`query`, `from:`, `subject:`, `after:`, `before:`,
`has:attachment`, `is:unread`, joined by spaces). -/
def buildGmailQuery (query sender subject dateFrom dateTo : String)
    (hasAttachment isUnread : Option Bool) : String :=
  String.intercalate " "
    ((if query ≠ "" then [query] else []) ++
     (if sender ≠ "" then ["from:" ++ sender] else []) ++
     (if subject ≠ "" then ["subject:" ++ subject] else []) ++
     (if dateFrom ≠ "" then ["after:" ++ dateFrom] else []) ++
     (if dateTo ≠ "" then ["before:" ++ dateTo] else []) ++
     (if hasAttachment = some true then ["has:attachment"] else []) ++
     (if isUnread = some true then ["is:unread"] else []))

/-- `gmailService.searchEmails(user, searchOptions)`.  `syncEffect`
abstracts the table mutation performed by the embedded
`fetchEmails(user, {query: searchQuery, maxResults: limit})` call.
Returns the result, the number of remote sync (fetch) calls performed,
and the final table. -/
def searchEmails (uid : Nat) (db : List EmailRow)
    (query sender subject dateFrom dateTo : String)
    (hasAttachment isUnread : Option Bool) (page limit : Nat)
    (syncEffect : List EmailRow → List EmailRow) :
    SearchResult × Nat × List EmailRow :=
  let searchQuery := buildGmailQuery query sender subject dateFrom dateTo
    hasAttachment isUnread
  let offset := (page - 1) * limit
  let localResults := localSearchEmails db uid query limit offset
  if localResults.count < limit && searchQuery ≠ "" then
    let db' := syncEffect db
    (localSearchEmails db' uid query limit offset, 1, db')
  else
    (localResults, 0, db)

/-! ## The paginated list endpoint (src/backend/routes/emails.js, GET /emails) -/

/-- A JSON scalar appearing in the pagination object. -/
inductive JVal where
  | num (n : Nat)
  | bool (b : Bool)
deriving Repr, DecidableEq

/-- The `pagination` object literal built by the GET /emails handler,
with its exact field names in source order. -/
def paginationObject (page limit count : Nat) : List (String × JVal) :=
  let totalPages := (count + limit - 1) / limit
  [("currentPage", .num page),
   ("totalPages", .num totalPages),
   ("totalCount", .num count),
   ("limit", .num limit),
   ("hasNextPage", .bool (decide (page < totalPages))),
   ("hasPrevPage", .bool (decide (1 < page)))]

/-- The GET /emails handler's query-and-paginate step: `findAndCountAll`
with `offset = (page-1)*limit` over the user's (already filtered and
ordered) rows, plus the pagination object. -/
def getEmailsHandler (rows : List EmailRow) (page limit : Nat) :
    List EmailRow × List (String × JVal) :=
  ((rows.drop ((page - 1) * limit)).take limit,
   paginationObject page limit rows.length)

/-! ## Shared concrete sample data -/

/-- A fully configured OAuth environment. -/
def sampleCfg : OAuthConfig := ⟨some "cid", some "csecret", some "curi"⟩

/-- A user holding all three credential fields. -/
def sampleUser : User :=
  { id := 1, googleId := "g-1", email := "user@example.com", name := "User One",
    picture := none, accessToken := some "at-1", refreshToken := some "rt-1",
    tokenExpiry := some 50, lastLoginAt := some 10, isActive := true }

/-- The transient wrapper never coincides with the terminal
`invalid_grant` message (their first characters differ). -/
theorem wrapped_ne_invalidGrant (msg : String) :
    ("Failed to refresh access token: " ++ msg) ≠ invalidGrantMsg := by
  intro h
  have h2 := congrArg String.data h
  rw [String.data_append] at h2
  have hL : "Failed to refresh access token: ".data
      = 'F' :: "ailed to refresh access token: ".data := rfl
  have hR : invalidGrantMsg.data
      = 'i' :: "nvalid_grant: Refresh token is invalid, expired, or revoked. User must re-authenticate.".data := rfl
  rw [hL, hR, List.cons_append] at h2
  simp at h2

/-- C2: for a user with a stored refresh token, a refresh rejection whose
message carries `invalid_grant` nulls all three credential fields and
raises the terminal re-authentication message, while any other refresh
failure (e.g. a network timeout) leaves the user row unchanged and raises
the distinct transient `Failed to refresh access token: ...` message. -/
theorem c2_refresh_failure_classification (now : Int) (u : User) (rt msg : String)
    (hrt : u.refreshToken = some rt) :
    (jsIncludes msg "invalid_grant" = true →
      (refreshAccessToken now u (.failure msg)).1.accessToken = none ∧
      (refreshAccessToken now u (.failure msg)).1.refreshToken = none ∧
      (refreshAccessToken now u (.failure msg)).1.tokenExpiry = none ∧
      (refreshAccessToken now u (.failure msg)).2 = .error invalidGrantMsg ∧
      jsIncludes invalidGrantMsg "invalid_grant" = true) ∧
    (jsIncludes msg "invalid_grant" = false →
     jsIncludes msg "Re-authentication required" = false →
      (refreshAccessToken now u (.failure msg)).1 = u ∧
      (refreshAccessToken now u (.failure msg)).2
        = .error ("Failed to refresh access token: " ++ msg) ∧
      ("Failed to refresh access token: " ++ msg) ≠ invalidGrantMsg) := by
  constructor
  · intro hg
    simp [refreshAccessToken, hrt, hg]
    decide
  · intro hg hr
    simp [refreshAccessToken, hrt, hg, hr]
    exact wrapped_ne_invalidGrant msg

/-- Witness for C2 at a concrete user, a concrete `invalid_grant`
rejection and a concrete timeout message. -/
theorem c2_witness :
    ((refreshAccessToken 0 sampleUser (.failure "invalid_grant: token revoked")).1.accessToken = none ∧
     (refreshAccessToken 0 sampleUser (.failure "invalid_grant: token revoked")).1.refreshToken = none ∧
     (refreshAccessToken 0 sampleUser (.failure "invalid_grant: token revoked")).1.tokenExpiry = none ∧
     (refreshAccessToken 0 sampleUser (.failure "invalid_grant: token revoked")).2 = .error invalidGrantMsg ∧
     jsIncludes invalidGrantMsg "invalid_grant" = true) ∧
    ((refreshAccessToken 0 sampleUser (.failure "ETIMEDOUT: network timeout")).1 = sampleUser ∧
     (refreshAccessToken 0 sampleUser (.failure "ETIMEDOUT: network timeout")).2
       = .error ("Failed to refresh access token: " ++ "ETIMEDOUT: network timeout") ∧
     ("Failed to refresh access token: " ++ "ETIMEDOUT: network timeout") ≠ invalidGrantMsg) :=
  ⟨(c2_refresh_failure_classification 0 sampleUser "rt-1"
      "invalid_grant: token revoked" rfl).1 (by decide),
   (c2_refresh_failure_classification 0 sampleUser "rt-1"
      "ETIMEDOUT: network timeout" rfl).2 (by decide) (by decide)⟩

/-- C5: a successful refresh stores the new access token, recomputes the
expiry as now plus the remote-reported lifetime (3600 s when the response
omits `expiry_date`), preserves the refresh token and touches no other
field. -/
theorem c5_refresh_success_frame (now : Int) (u : User) (rt : String)
    (creds : Credentials) (hrt : u.refreshToken = some rt) :
    (refreshAccessToken now u (.success creds)).2 = .ok creds.access_token ∧
    (refreshAccessToken now u (.success creds)).1.accessToken = some creds.access_token ∧
    (refreshAccessToken now u (.success creds)).1.tokenExpiry
      = some (now + 1000 * refreshLifetimeSec now creds.expiry_date) ∧
    (creds.expiry_date = none →
      (refreshAccessToken now u (.success creds)).1.tokenExpiry = some (now + 3600000)) ∧
    (∀ e, creds.expiry_date = some e → e ≠ 0 →
      (refreshAccessToken now u (.success creds)).1.tokenExpiry
        = some (now + 1000 * Int.fdiv (e - now) 1000)) ∧
    (refreshAccessToken now u (.success creds)).1.refreshToken = u.refreshToken ∧
    (refreshAccessToken now u (.success creds)).1.id = u.id ∧
    (refreshAccessToken now u (.success creds)).1.googleId = u.googleId ∧
    (refreshAccessToken now u (.success creds)).1.email = u.email ∧
    (refreshAccessToken now u (.success creds)).1.name = u.name ∧
    (refreshAccessToken now u (.success creds)).1.picture = u.picture ∧
    (refreshAccessToken now u (.success creds)).1.lastLoginAt = u.lastLoginAt ∧
    (refreshAccessToken now u (.success creds)).1.isActive = u.isActive := by
  have key : refreshAccessToken now u (.success creds)
      = ({ u with
            accessToken := some creds.access_token,
            tokenExpiry := some (now + 1000 * refreshLifetimeSec now creds.expiry_date) },
         .ok creds.access_token) := by
    simp only [refreshAccessToken, hrt]
  rw [key]
  refine ⟨rfl, rfl, rfl, ?_, ?_, rfl, rfl, rfl, rfl, rfl, rfl, rfl, rfl⟩
  · intro h
    rw [h]
    norm_num [refreshLifetimeSec, truthyExpiry]
  · intro e he hz
    rw [he]
    simp [refreshLifetimeSec, truthyExpiry, hz]

/-- Witness for C5 at a concrete user and a response omitting the
lifetime. -/
theorem c5_witness :
    (refreshAccessToken 100 sampleUser (.success ⟨"newtok", none⟩)).2 = .ok "newtok" ∧
    (refreshAccessToken 100 sampleUser (.success ⟨"newtok", none⟩)).1.accessToken = some "newtok" ∧
    (refreshAccessToken 100 sampleUser (.success ⟨"newtok", none⟩)).1.tokenExpiry
      = some (100 + 1000 * refreshLifetimeSec 100 none) ∧
    (none = (none : Option Int) →
      (refreshAccessToken 100 sampleUser (.success ⟨"newtok", none⟩)).1.tokenExpiry
        = some (100 + 3600000)) ∧
    (∀ e, (none : Option Int) = some e → e ≠ 0 →
      (refreshAccessToken 100 sampleUser (.success ⟨"newtok", none⟩)).1.tokenExpiry
        = some (100 + 1000 * Int.fdiv (e - 100) 1000)) ∧
    (refreshAccessToken 100 sampleUser (.success ⟨"newtok", none⟩)).1.refreshToken = sampleUser.refreshToken ∧
    (refreshAccessToken 100 sampleUser (.success ⟨"newtok", none⟩)).1.id = sampleUser.id ∧
    (refreshAccessToken 100 sampleUser (.success ⟨"newtok", none⟩)).1.googleId = sampleUser.googleId ∧
    (refreshAccessToken 100 sampleUser (.success ⟨"newtok", none⟩)).1.email = sampleUser.email ∧
    (refreshAccessToken 100 sampleUser (.success ⟨"newtok", none⟩)).1.name = sampleUser.name ∧
    (refreshAccessToken 100 sampleUser (.success ⟨"newtok", none⟩)).1.picture = sampleUser.picture ∧
    (refreshAccessToken 100 sampleUser (.success ⟨"newtok", none⟩)).1.lastLoginAt = sampleUser.lastLoginAt ∧
    (refreshAccessToken 100 sampleUser (.success ⟨"newtok", none⟩)).1.isActive = sampleUser.isActive :=
  c5_refresh_success_frame 100 sampleUser "rt-1" ⟨"newtok", none⟩ rfl

/-- A user whose stored expiry is exactly the probe time 1000. -/
def userAtBoundary : User :=
  { id := 2, googleId := "g-2", email := "b@example.com", name := "B",
    picture := none, accessToken := some "tok", refreshToken := some "ref",
    tokenExpiry := some 1000, lastLoginAt := none, isActive := true }

/-- C3 counterexample: with `tokenExpiry` exactly equal to the current
time, the token is NOT treated as expired — no refresh is attempted and
the stored access token is installed, contradicting the claim that
`expiry == now` triggers a refresh. -/
theorem c3_counterexample :
    isTokenExpired 1000 userAtBoundary = false ∧
    (initializeClient sampleCfg 1000 userAtBoundary (.failure "x")).refreshCalled = false ∧
    (initializeClient sampleCfg 1000 userAtBoundary (.failure "x")).result
      = .ok (some "tok", some "ref") := by
  refine ⟨by decide, by decide, ?_⟩
  rfl

/-- C3 (amended): the expiry check is strict — a stored expiry equal to
or later than the current time is treated as valid (the stored access
token is installed and no refresh call is made), and a refresh is
attempted exactly when the current time strictly exceeds the expiry. -/
theorem c3_expiry_boundary_amended (cfg : OAuthConfig) (now t : Int) (u : User)
    (outcome : RefreshOutcome) (a rt : String)
    (h1 : truthyStr cfg.clientId = true) (h2 : truthyStr cfg.clientSecret = true)
    (h3 : truthyStr cfg.redirectUri = true)
    (hat : u.accessToken = some a)
    (hrt : u.refreshToken = some rt) (hr : rt ≠ "")
    (hexp : u.tokenExpiry = some t) :
    (now ≤ t →
      (initializeClient cfg now u outcome).refreshCalled = false ∧
      (initializeClient cfg now u outcome).result = .ok (some a, some rt) ∧
      (initializeClient cfg now u outcome).user = u) ∧
    (t < now → (initializeClient cfg now u outcome).refreshCalled = true) := by
  have hexpired : isTokenExpired now u = decide (t < now) := by
    simp [isTokenExpired, hexp]
  have hA : (!(truthyStr cfg.clientId && truthyStr cfg.clientSecret &&
      truthyStr cfg.redirectUri)) = false := by
    rw [h1, h2, h3]; rfl
  have hB : truthyStr u.refreshToken = true := by
    rw [hrt]; simpa [truthyStr] using hr
  have hRt : truthyStr (some rt) = true := by
    simpa [truthyStr] using hr
  constructor
  · intro hle
    have hnot : isTokenExpired now u = false := by
      rw [hexpired]; simpa using not_lt.mpr hle
    simp [initializeClient, hA, hnot, hat, hrt, hRt]
  · intro hlt
    have hyes : isTokenExpired now u = true := by
      rw [hexpired]; simpa using hlt
    simp [initializeClient, hA, hyes, hat, hrt, hRt]
    rcases refreshAccessToken now u outcome with ⟨u', r⟩
    cases r <;> simp

/-- A user whose stored expiry is 2000. -/
def userLater : User :=
  { id := 3, googleId := "g-3", email := "c@example.com", name := "C",
    picture := none, accessToken := some "tok2", refreshToken := some "ref2",
    tokenExpiry := some 2000, lastLoginAt := none, isActive := true }

/-- Witness for the amended C3: at expiry 2000, probing at 1000 (one
second early) uses the stored token without refreshing, and probing at
3000 attempts a refresh. -/
theorem c3_witness :
    ((initializeClient sampleCfg 1000 userLater (.failure "x")).refreshCalled = false ∧
     (initializeClient sampleCfg 1000 userLater (.failure "x")).result
       = .ok (some "tok2", some "ref2") ∧
     (initializeClient sampleCfg 1000 userLater (.failure "x")).user = userLater) ∧
    (initializeClient sampleCfg 3000 userLater (.failure "x")).refreshCalled = true :=
  ⟨(c3_expiry_boundary_amended sampleCfg 1000 2000 userLater (.failure "x") "tok2" "ref2"
      (by decide) (by decide) (by decide) rfl rfl (by decide) rfl).1 (by decide),
   (c3_expiry_boundary_amended sampleCfg 3000 2000 userLater (.failure "x") "tok2" "ref2"
      (by decide) (by decide) (by decide) rfl rfl (by decide) rfl).2 (by decide)⟩

/-! ## Upsert lemmas (storeEmails) -/

/-- A present key has at least one matching row. -/
theorem keyCount_pos (db : List EmailRow) (uid : Nat) (mid : String)
    (h : hasKey db uid mid = true) : 0 < keyCount db uid mid := by
  simp only [hasKey, List.any_eq_true] at h
  obtain ⟨r, hr, hp⟩ := h
  have hm : r ∈ db.filter (fun r => r.userId == uid && r.messageId == mid) :=
    List.mem_filter.mpr ⟨hr, hp⟩
  simpa [keyCount] using List.length_pos.mpr (List.ne_nil_of_mem hm)

/-- An absent key has no matching row. -/
theorem keyCount_zero (db : List EmailRow) (uid : Nat) (mid : String)
    (h : hasKey db uid mid = false) : keyCount db uid mid = 0 := by
  simp only [keyCount, List.length_eq_zero, List.filter_eq_nil_iff]
  intro r hr
  simp only [hasKey, List.any_eq_false] at h
  exact h r hr

/-- A concrete stored row (unread, unstarred). -/
def storedRow : EmailRow :=
  { userId := 1, messageId := "mid-1", threadId := "t1", subject := "Hello",
    sender := "a@b.com", senderName := "A", recipient := "u@example.com",
    snippet := "old snippet", bodyPreview := "old snippet", receivedDate := 500,
    isRead := false, isStarred := false, hasAttachments := false,
    labels := ["INBOX", "UNREAD"], priority := "medium", size := 10,
    gmailMessageId := some "gm-1" }

/-- The same remote message re-synced after being read and starred. -/
def resyncRow : EmailRow :=
  { storedRow with
      isRead := true,
      isStarred := true,
      labels := ["INBOX", "STARRED"] }

/-- C1 counterexample: re-syncing a stored message whose read/starred/label
state changed leaves the stored row byte-identical — `findOrCreate` does
not update the conflicting row, contradicting the claim that the upsert
updates the mutable fields on conflict. -/
theorem c1_counterexample :
    storeEmails [storedRow] [resyncRow] = [storedRow] ∧
    storedRow.isRead = false ∧ resyncRow.isRead = true ∧
    resyncRow.userId = storedRow.userId ∧ resyncRow.messageId = storedRow.messageId ∧
    storedRow ≠ resyncRow := by
  refine ⟨by decide, rfl, rfl, rfl, rfl, by decide⟩

/-- C1 (amended): when a row with the same `(userId, messageId)` key
already exists, `storeEmails` leaves the whole table unchanged — no
duplicate row is created, and no field of the existing row is updated. -/
theorem c1_conflict_keeps_row (db : List EmailRow) (e : EmailRow)
    (h : hasKey db e.userId e.messageId = true) :
    storeEmails db [e] = db := by
  simp [storeEmails, findOrCreate, h]

/-- Witness for the amended C1 at the concrete changed re-sync payload. -/
theorem c1_witness : storeEmails [storedRow] [resyncRow] = [storedRow] :=
  c1_conflict_keeps_row [storedRow] resyncRow (by decide)

/-- C4: under the model's unique `(userId, messageId)` index, syncing the
same payload twice leaves the table of the first sync unchanged and
exactly one row carries that key. -/
theorem c4_idempotent_resync (db : List EmailRow) (e : EmailRow)
    (hu : UniqueKeys db) :
    storeEmails (storeEmails db [e]) [e] = storeEmails db [e] ∧
    keyCount (storeEmails db [e]) e.userId e.messageId = 1 := by
  by_cases h : hasKey db e.userId e.messageId = true
  · have h1 : storeEmails db [e] = db := by simp [storeEmails, findOrCreate, h]
    rw [h1]
    refine ⟨by simp [storeEmails, findOrCreate, h], ?_⟩
    have hge := keyCount_pos db _ _ h
    have hle := hu e.userId e.messageId
    omega
  · have hf : hasKey db e.userId e.messageId = false := by
      simpa using h
    have h1 : storeEmails db [e] = db ++ [e] := by
      simp [storeEmails, findOrCreate, hf]
    rw [h1]
    have h2 : hasKey (db ++ [e]) e.userId e.messageId = true := by
      simp [hasKey]
    refine ⟨by simp [storeEmails, findOrCreate, h2], ?_⟩
    have h0 := keyCount_zero db _ _ hf
    simp only [keyCount, List.filter_append] at h0 ⊢
    simp [List.length_append, h0]

/-- Witness for C4: an empty table trivially satisfies the unique index. -/
theorem c4_witness :
    storeEmails (storeEmails [] [storedRow]) [storedRow] = storeEmails [] [storedRow] ∧
    keyCount (storeEmails [] [storedRow]) storedRow.userId storedRow.messageId = 1 :=
  c4_idempotent_resync [] storedRow (fun uid mid => by simp [keyCount])

/-! ## The stored message key (parseEmailMessage, C10) -/

/-- A remote message carrying a present but empty `Message-ID` header. -/
def msgEmptyMid : GmailMessage :=
  { id := "gm-10", threadId := "th-10", snippet := "snip", labelIds := ["INBOX"],
    sizeEstimate := 5,
    headers := [⟨"Message-ID", ""⟩, ⟨"From", "jane@x.com"⟩], parts := none }

/-- C10 counterexample: with a `Message-ID` header present but carrying an
empty value, the stored `messageId` is NOT the header's value but the
Gmail API id — the fallback fires on falsiness of the looked-up value,
not only on header absence. -/
theorem c10_counterexample :
    (msgEmptyMid.headers.any (fun h => h.name = "Message-ID")) = true ∧
    getHeader msgEmptyMid.headers "Message-ID" = "" ∧
    (parseEmailMessage 0 (fun _ => 0) msgEmptyMid 1).messageId = "gm-10" ∧
    (parseEmailMessage 0 (fun _ => 0) msgEmptyMid 1).messageId
      ≠ getHeader msgEmptyMid.headers "Message-ID" := by
  refine ⟨by decide, by decide, by decide, by decide⟩

/-- C10 (amended): the stored `messageId` is the `Message-ID` header's
value when that lookup yields a non-empty value and the Gmail API id
otherwise; the Gmail id goes into the separate `gmailMessageId` column;
and two distinct remote messages with the same non-empty `Message-ID`
header collide on a single stored row for the user. -/
theorem c10_message_id_key (now : Int) (pd : String → Int)
    (m : GmailMessage) (uid : Nat) :
    (getHeader m.headers "Message-ID" ≠ "" →
      (parseEmailMessage now pd m uid).messageId = getHeader m.headers "Message-ID") ∧
    (getHeader m.headers "Message-ID" = "" →
      (parseEmailMessage now pd m uid).messageId = m.id) ∧
    (parseEmailMessage now pd m uid).gmailMessageId = some m.id ∧
    (∀ m2, getHeader m2.headers "Message-ID" = getHeader m.headers "Message-ID" →
      getHeader m.headers "Message-ID" ≠ "" →
      storeEmails [] [parseEmailMessage now pd m uid, parseEmailMessage now pd m2 uid]
        = [parseEmailMessage now pd m uid]) := by
  refine ⟨?_, ?_, rfl, ?_⟩
  · intro h
    simp [parseEmailMessage, h]
  · intro h
    simp [parseEmailMessage, h]
  · intro m2 heq hne
    have hne2 : getHeader m2.headers "Message-ID" ≠ "" := by rw [heq]; exact hne
    have h1 : (parseEmailMessage now pd m uid).messageId
        = getHeader m.headers "Message-ID" := by simp [parseEmailMessage, hne]
    have h2 : (parseEmailMessage now pd m2 uid).messageId
        = getHeader m.headers "Message-ID" := by simp [parseEmailMessage, heq, hne]
    have key_eq : (parseEmailMessage now pd m2 uid).messageId
        = (parseEmailMessage now pd m uid).messageId := by rw [h1, h2]
    have hu1 : (parseEmailMessage now pd m uid).userId = uid := rfl
    have hu2 : (parseEmailMessage now pd m2 uid).userId = uid := rfl
    simp [storeEmails, findOrCreate, hasKey, hu1, hu2, key_eq]

/-- Two distinct remote messages sharing the `Message-ID` header value. -/
def msgDupA : GmailMessage :=
  { id := "gm-a", threadId := "th-a", snippet := "sa", labelIds := [],
    sizeEstimate := 1, headers := [⟨"Message-ID", "<dup@x>"⟩], parts := none }

/-- The second message with the same `Message-ID` but another Gmail id. -/
def msgDupB : GmailMessage :=
  { id := "gm-b", threadId := "th-b", snippet := "sb", labelIds := [],
    sizeEstimate := 2, headers := [⟨"Message-ID", "<dup@x>"⟩], parts := none }

/-- Witness for the amended C10 at the concrete duplicate pair. -/
theorem c10_witness :
    (parseEmailMessage 0 (fun _ => 0) msgDupA 1).messageId
      = getHeader msgDupA.headers "Message-ID" ∧
    (parseEmailMessage 0 (fun _ => 0) msgEmptyMid 1).messageId = msgEmptyMid.id ∧
    (parseEmailMessage 0 (fun _ => 0) msgDupA 1).gmailMessageId = some msgDupA.id ∧
    storeEmails []
        [parseEmailMessage 0 (fun _ => 0) msgDupA 1,
         parseEmailMessage 0 (fun _ => 0) msgDupB 1]
      = [parseEmailMessage 0 (fun _ => 0) msgDupA 1] :=
  ⟨(c10_message_id_key 0 (fun _ => 0) msgDupA 1).1 (by decide),
   (c10_message_id_key 0 (fun _ => 0) msgEmptyMid 1).2.1 (by decide),
   (c10_message_id_key 0 (fun _ => 0) msgDupA 1).2.2.1,
   (c10_message_id_key 0 (fun _ => 0) msgDupA 1).2.2.2 msgDupB (by decide) (by decide)⟩

/-! ## Priority derivation (determinePriority, C9) -/

/-- The header lookup made by `determinePriority`. -/
def findPriorityHeader (headers : List GmailHeader) : Option GmailHeader :=
  headers.find? (fun h => lowerStr h.name = "x-priority" || lowerStr h.name = "priority")

/-- C9: an important or promotional-category label forces `high`;
otherwise the first `X-Priority`/`Priority` header decides — a value
containing `high` or equal to `1` gives `high`, else one containing `low`
or equal to `5` gives `low` — and in every other case (including no such
header) the priority is `medium`. -/
theorem c9_priority_derivation (labels : List String) (headers : List GmailHeader) :
    ((labels.contains "IMPORTANT" || labels.contains "CATEGORY_PROMOTIONS") = true →
      determinePriority labels headers = "high") ∧
    ((labels.contains "IMPORTANT" || labels.contains "CATEGORY_PROMOTIONS") = false →
      (findPriorityHeader headers = none →
        determinePriority labels headers = "medium") ∧
      (∀ h, findPriorityHeader headers = some h →
        ((jsIncludes (lowerStr h.value) "high" || lowerStr h.value = "1") = true →
          determinePriority labels headers = "high") ∧
        ((jsIncludes (lowerStr h.value) "high" || lowerStr h.value = "1") = false →
          (jsIncludes (lowerStr h.value) "low" || lowerStr h.value = "5") = true →
          determinePriority labels headers = "low") ∧
        ((jsIncludes (lowerStr h.value) "high" || lowerStr h.value = "1") = false →
          (jsIncludes (lowerStr h.value) "low" || lowerStr h.value = "5") = false →
          determinePriority labels headers = "medium"))) := by
  constructor
  · intro hl
    simp only [determinePriority, hl]
    rfl
  · intro hl
    constructor
    · intro hf
      simp only [determinePriority, hl, Bool.false_eq_true, if_false]
      rw [findPriorityHeader] at hf
      rw [hf]
    · intro h hf
      rw [findPriorityHeader] at hf
      refine ⟨?_, ?_, ?_⟩
      · intro hc
        simp only [determinePriority, hl, Bool.false_eq_true, if_false, hf]
        simp [hc]
      · intro hc1 hc2
        simp only [determinePriority, hl, Bool.false_eq_true, if_false, hf]
        simp [hc1, hc2]
      · intro hc1 hc2
        simp only [determinePriority, hl, Bool.false_eq_true, if_false, hf]
        simp [hc1, hc2]

/-- Witness for C9: an important label, a `1`-valued `X-Priority` header,
a `5`-valued one, and no header at all. -/
theorem c9_witness :
    determinePriority ["IMPORTANT"] [] = "high" ∧
    determinePriority [] [⟨"X-Priority", "1"⟩] = "high" ∧
    determinePriority [] [⟨"X-Priority", "5"⟩] = "low" ∧
    determinePriority [] [] = "medium" :=
  ⟨(c9_priority_derivation ["IMPORTANT"] []).1 (by decide),
   ((c9_priority_derivation [] [⟨"X-Priority", "1"⟩]).2 (by decide)).2
     ⟨"X-Priority", "1"⟩ (by decide) |>.1 (by decide),
   (((c9_priority_derivation [] [⟨"X-Priority", "5"⟩]).2 (by decide)).2
     ⟨"X-Priority", "5"⟩ (by decide)).2.1 (by decide) (by decide),
   ((c9_priority_derivation [] []).2 (by decide)).1 (by decide)⟩

/-! ## Pagination envelope (GET /emails, C8) -/

/-- C8 counterexample: at page 2 of a 45-row result with limit 20 the
handler returns 20 items, but the pagination object carries no
`hasPreviousPage` field — its keys are `currentPage, totalPages,
totalCount, limit, hasNextPage, hasPrevPage`. -/
theorem c8_counterexample :
    ((getEmailsHandler (List.replicate 45 storedRow) 2 20).1).length = 20 ∧
    (getEmailsHandler (List.replicate 45 storedRow) 2 20).2 = paginationObject 2 20 45 ∧
    (paginationObject 2 20 45).lookup "hasPreviousPage" = none ∧
    ((paginationObject 2 20 45).map Prod.fst)
      = ["currentPage", "totalPages", "totalCount", "limit", "hasNextPage", "hasPrevPage"] := by
  refine ⟨by decide, by decide, by decide, by decide⟩

/-- C8 (amended): page 2 of a 45-item result with page size 20 yields
exactly 20 items and a pagination object with `currentPage=2`,
`totalPages=3`, `totalCount=45`, `hasNextPage=true` and — under the name
`hasPrevPage`, not `hasPreviousPage` — a true previous-page flag, plus a
`limit` field. -/
theorem c8_pagination_amended (rows : List EmailRow) (h : rows.length = 45) :
    ((getEmailsHandler rows 2 20).1).length = 20 ∧
    (getEmailsHandler rows 2 20).2
      = [("currentPage", .num 2), ("totalPages", .num 3), ("totalCount", .num 45),
         ("limit", .num 20), ("hasNextPage", .bool true), ("hasPrevPage", .bool true)] := by
  constructor
  · simp [getEmailsHandler, h]
  · simp [getEmailsHandler, paginationObject, h]

/-- Witness for the amended C8 at a concrete 45-row table. -/
theorem c8_witness :
    ((getEmailsHandler (List.replicate 45 storedRow) 2 20).1).length = 20 ∧
    (getEmailsHandler (List.replicate 45 storedRow) 2 20).2
      = [("currentPage", .num 2), ("totalPages", .num 3), ("totalCount", .num 45),
         ("limit", .num 20), ("hasNextPage", .bool true), ("hasPrevPage", .bool true)] :=
  c8_pagination_amended (List.replicate 45 storedRow) (by simp)

/-! ## Partial batch tolerance (fetchEmails, C6) -/

/-- The parsed row's owner is the requesting user. -/
theorem parse_userId (now : Int) (pd : String → Int) (m : GmailMessage) (uid : Nat) :
    (parseEmailMessage now pd m uid).userId = uid := rfl

/-- The parsed row records the Gmail id in `gmailMessageId`. -/
theorem parse_gmailId (now : Int) (pd : String → Int) (m : GmailMessage) (uid : Nat) :
    (parseEmailMessage now pd m uid).gmailMessageId = some m.id := rfl

/-- C6: listing five ids of which exactly the third's detail fetch throws,
the sync still succeeds: the failed message is dropped, the four others
are stored, and the reported count is 4. -/
theorem c6_partial_batch (uid : Nat) (now : Int) (pd : String → Int)
    (i1 i2 i3 i4 i5 : String) (m1 m2 m4 m5 : GmailMessage) (err : String)
    (npt : Option String) (d : String → Except String GmailMessage)
    (h1 : d i1 = .ok m1) (h2 : d i2 = .ok m2) (h3 : d i3 = .error err)
    (h4 : d i4 = .ok m4) (h5 : d i5 = .ok m5)
    (h12 : (parseEmailMessage now pd m1 uid).messageId ≠ (parseEmailMessage now pd m2 uid).messageId)
    (h14 : (parseEmailMessage now pd m1 uid).messageId ≠ (parseEmailMessage now pd m4 uid).messageId)
    (h15 : (parseEmailMessage now pd m1 uid).messageId ≠ (parseEmailMessage now pd m5 uid).messageId)
    (h24 : (parseEmailMessage now pd m2 uid).messageId ≠ (parseEmailMessage now pd m4 uid).messageId)
    (h25 : (parseEmailMessage now pd m2 uid).messageId ≠ (parseEmailMessage now pd m5 uid).messageId)
    (h45 : (parseEmailMessage now pd m4 uid).messageId ≠ (parseEmailMessage now pd m5 uid).messageId) :
    (fetchEmails uid now pd 20 (.ok ([i1, i2, i3, i4, i5], npt)) d []).2
      = [parseEmailMessage now pd m1 uid, parseEmailMessage now pd m2 uid,
         parseEmailMessage now pd m4 uid, parseEmailMessage now pd m5 uid] ∧
    (fetchEmails uid now pd 20 (.ok ([i1, i2, i3, i4, i5], npt)) d []).1
      = .ok ⟨[parseEmailMessage now pd m1 uid, parseEmailMessage now pd m2 uid,
              parseEmailMessage now pd m4 uid, parseEmailMessage now pd m5 uid], npt, 4⟩ := by
  have hparsed : ([i1, i2, i3, i4, i5].filterMap (fun i =>
      match d i with
      | .ok m => some (parseEmailMessage now pd m uid)
      | .error _ => none))
      = [parseEmailMessage now pd m1 uid, parseEmailMessage now pd m2 uid,
         parseEmailMessage now pd m4 uid, parseEmailMessage now pd m5 uid] := by
    simp [h1, h2, h3, h4, h5]
  have hstore : storeEmails []
      [parseEmailMessage now pd m1 uid, parseEmailMessage now pd m2 uid,
       parseEmailMessage now pd m4 uid, parseEmailMessage now pd m5 uid]
      = [parseEmailMessage now pd m1 uid, parseEmailMessage now pd m2 uid,
         parseEmailMessage now pd m4 uid, parseEmailMessage now pd m5 uid] := by
    simp [storeEmails, findOrCreate, hasKey, h12, h14, h15, h24, h25, h45]
  have hfilter : (List.filter (fun r =>
      r.userId == uid &&
        ([parseEmailMessage now pd m1 uid, parseEmailMessage now pd m2 uid,
          parseEmailMessage now pd m4 uid, parseEmailMessage now pd m5 uid].map
            (·.gmailMessageId)).contains r.gmailMessageId)
      [parseEmailMessage now pd m1 uid, parseEmailMessage now pd m2 uid,
       parseEmailMessage now pd m4 uid, parseEmailMessage now pd m5 uid])
      = [parseEmailMessage now pd m1 uid, parseEmailMessage now pd m2 uid,
         parseEmailMessage now pd m4 uid, parseEmailMessage now pd m5 uid] := by
    simp [List.filter, parse_userId, parse_gmailId]
  simp only [fetchEmails, List.isEmpty_cons, Bool.false_eq_true, if_false, hparsed,
    hstore, hfilter]
  exact ⟨trivial, rfl⟩

/-- Four messages with distinct `Message-ID` headers. -/
def c6msg (tag : String) : GmailMessage :=
  { id := "gm-" ++ tag, threadId := "th-" ++ tag, snippet := "s" ++ tag,
    labelIds := [], sizeEstimate := 1,
    headers := [⟨"Message-ID", "<" ++ tag ++ "@x>"⟩], parts := none }

/-- The per-id detail behaviour: the third id throws, the rest succeed. -/
def c6detail : String → Except String GmailMessage :=
  fun s =>
    if s = "id-3" then .error "boom"
    else if s = "id-1" then .ok (c6msg "a")
    else if s = "id-2" then .ok (c6msg "b")
    else if s = "id-4" then .ok (c6msg "c")
    else .ok (c6msg "d")

/-- Witness for C6 at the concrete five-id batch. -/
theorem c6_witness :
    (fetchEmails 1 0 (fun _ => 0) 20 (.ok (["id-1", "id-2", "id-3", "id-4", "id-5"], none))
        c6detail []).2
      = [parseEmailMessage 0 (fun _ => 0) (c6msg "a") 1,
         parseEmailMessage 0 (fun _ => 0) (c6msg "b") 1,
         parseEmailMessage 0 (fun _ => 0) (c6msg "c") 1,
         parseEmailMessage 0 (fun _ => 0) (c6msg "d") 1] ∧
    (fetchEmails 1 0 (fun _ => 0) 20 (.ok (["id-1", "id-2", "id-3", "id-4", "id-5"], none))
        c6detail []).1
      = .ok ⟨[parseEmailMessage 0 (fun _ => 0) (c6msg "a") 1,
              parseEmailMessage 0 (fun _ => 0) (c6msg "b") 1,
              parseEmailMessage 0 (fun _ => 0) (c6msg "c") 1,
              parseEmailMessage 0 (fun _ => 0) (c6msg "d") 1], none, 4⟩ :=
  c6_partial_batch 1 0 (fun _ => 0) "id-1" "id-2" "id-3" "id-4" "id-5"
    (c6msg "a") (c6msg "b") (c6msg "c") (c6msg "d") "boom" none c6detail
    rfl rfl rfl rfl rfl
    (by decide) (by decide) (by decide) (by decide) (by decide) (by decide)

/-! ## Lazy remote fallback in search (searchEmails, C7) -/

/-- C7: with 2 local matches and page size 20, a non-empty remote query
triggers exactly one remote sync call and the re-query runs on the synced
table; an all-empty search performs zero remote calls and returns the
local results only. -/
theorem c7_search_fallback (uid : Nat) (db : List EmailRow) (q : String)
    (syncEffect : List EmailRow → List EmailRow)
    (hq : q ≠ "")
    (hcount : (localSearchEmails db uid q 20 0).count = 2) :
    searchEmails uid db q "" "" "" "" none none 1 20 syncEffect
      = (localSearchEmails (syncEffect db) uid q 20 0, 1, syncEffect db) ∧
    searchEmails uid db "" "" "" "" "" none none 1 20 syncEffect
      = (localSearchEmails db uid "" 20 0, 0, db) := by
  constructor
  · have hbuild : buildGmailQuery q "" "" "" "" none none = q := by
      simp only [buildGmailQuery]
      simp [hq]
      rfl
    simp [searchEmails, hbuild, hq, hcount]
  · have hbuild : buildGmailQuery "" "" "" "" "" none none = "" := by
      simp [buildGmailQuery, String.intercalate]
    simp [searchEmails, hbuild]

/-- Two locally stored rows matching the query `foo` for user 1. -/
def fooRow1 : EmailRow :=
  { storedRow with messageId := "mid-f1", subject := "about foo things" }

/-- The second matching row. -/
def fooRow2 : EmailRow :=
  { storedRow with messageId := "mid-f2", subject := "more foo here" }

/-- Witness for C7: the concrete two-match table, with the sync effect
appending one new row. -/
theorem c7_witness :
    searchEmails 1 [fooRow1, fooRow2] "foo" "" "" "" "" none none 1 20
        (fun db => db ++ [storedRow])
      = (localSearchEmails ([fooRow1, fooRow2] ++ [storedRow]) 1 "foo" 20 0, 1,
         [fooRow1, fooRow2] ++ [storedRow]) ∧
    searchEmails 1 [fooRow1, fooRow2] "" "" "" "" "" none none 1 20
        (fun db => db ++ [storedRow])
      = (localSearchEmails [fooRow1, fooRow2] 1 "" 20 0, 0, [fooRow1, fooRow2]) :=
  c7_search_fallback 1 [fooRow1, fooRow2] "foo" (fun db => db ++ [storedRow])
    (by decide) (by decide)

end GmailViewer
